import Mathlib

/-!
Shallow embedding of the beans betting bot (src/app.py): record parsing,
game summarizing, winner prediction, daily-report building, league
selection for the `/today` command, and the webhook secret configuration.

Python dictionaries from the ESPN scoreboard JSON are modelled as explicit
structures carrying exactly the fields the code reads.  Python exceptions
are modelled with `Except`; the single exception that can escape
`summarize_game` (the `StopIteration` raised by `next()` when the home or
away competitor is missing) is the one error constructor.  The floating
point `pct` field is modelled as the exact rational `wins / max 1 (wins+losses)`
that the Python expression computes on its integer inputs.
-/

namespace BeansBot

/-- One competitor entry of `events[i].competitions[0].competitors`, with the
fields `summarize_game` reads: `homeAway`, `team.id`, `team.displayName`,
`team.abbreviation` (optional), `records[i].summary` (each record's optional
`summary` string; an absent or empty `records` list is the empty list), and
the optional `score` string.  The numeric value of a present `score` string
is taken via `String.toInt?` (the Python code applies `int` to it, which
assumes a well-formed decimal string). -/
structure Competitor where
  homeAway : String
  teamId : String
  displayName : String
  abbr : Option String
  records : List (Option String)
  score : Option String
deriving Repr, DecidableEq

/-- One raw game (`events[i]`): the competitor list of its first competition,
`status.type.description`, and the optional `date` field. -/
structure RawGame where
  competitors : List Competitor
  statusDescription : String
  date : Option String
deriving Repr, DecidableEq

/-- The derived per-team statistics dictionary built by `team_info`. -/
structure TeamStat where
  id : String
  name : String
  abbr : String
  wins : Nat
  losses : Nat
  pct : ℚ
  score : Int
  home : Bool
deriving Repr, DecidableEq

/-- The normalized game dictionary returned by `summarize_game`. -/
structure NormalizedGame where
  home : TeamStat
  away : TeamStat
  status : String
  start : String
deriving Repr, DecidableEq

/-- The one exception that can escape `summarize_game`: `next()` on an empty
generator (no home or no away competitor) — the malformed-game error. -/
inductive SummarizeError where
  | malformedGame
deriving Repr, DecidableEq

/-- Numeric value of a run of decimal digits, as Python `int` computes it. -/
def natOfDigits (cs : List Char) : Nat :=
  cs.foldl (fun n c => 10 * n + (c.toNat - 48)) 0

/-- Accumulator pass of `re.findall(r"\d+", s)`: `cur` is the current digit
run, reversed. -/
def findallDigitsAux : List Char → List Char → List (List Char)
  | [], cur => if cur.isEmpty then [] else [cur.reverse]
  | c :: cs, cur =>
    if c.isDigit then findallDigitsAux cs (c :: cur)
    else if cur.isEmpty then findallDigitsAux cs []
    else cur.reverse :: findallDigitsAux cs []

/-- The full `re.findall(r"\d+", s)` on the character list of `s`: the maximal runs
of decimal digits, in order. -/
def findallDigits (l : List Char) : List (List Char) :=
  findallDigitsAux l []

/-- All integers embedded in a record-summary string, in order:
`[int(x) for x in re.findall(r"\d+", rec_summary)]`. -/
def record_nums (rec_summary : String) : List Nat :=
  (findallDigits rec_summary.data).map natOfDigits

/-- The helper `_parse_record`: the first two embedded integers as (wins, losses), or
(0, 0) when fewer than two integers are found. -/
def parse_record (rec_summary : String) : Nat × Nat :=
  match record_nums rec_summary with
  | n0 :: n1 :: _ => (n0, n1)
  | _ => (0, 0)

/-- Python `str.lower()` on the ASCII strings this code handles: per-character
lower-casing. -/
def lower (s : String) : String :=
  String.mk (s.data.map Char.toLower)

/-- Python `str.upper()` on the ASCII strings this code handles: per-character
upper-casing. -/
def upper (s : String) : String :=
  String.mk (s.data.map Char.toUpper)

/-- Python `int(s)` on a well-formed decimal string (an optional leading minus
sign followed by digits) — the only shape the data source's score strings
take. -/
def parseIntStr (s : String) : Int :=
  match s.data with
  | '-' :: ds => -(natOfDigits ds : Int)
  | ds => (natOfDigits ds : Int)

/-- The inner function `team_info` of `summarize_game`: builds the per-team statistics from
one competitor entry. -/
def team_info (c : Competitor) : TeamStat :=
  let record_summary : String :=
    match c.records with
    | [] => ""
    | r :: _ => r.getD ""
  let wl := parse_record record_summary
  let wins := wl.1
  let losses := wl.2
  let score : Int :=
    match c.score with
    | none => 0
    | some s => if s = "" then 0 else parseIntStr s
  { id := c.teamId
    name := c.displayName
    abbr := c.abbr.getD ""
    wins := wins
    losses := losses
    pct := if wins + losses > 0 then (wins : ℚ) / ((max 1 (wins + losses) : Nat) : ℚ) else 0
    score := score
    home := c.homeAway = "home" }

/-- The function `summarize_game`: locates the home and the away competitor with `next()`;
absence of either raises (modelled as `Except.error .malformedGame`). -/
def summarize_game (ev : RawGame) : Except SummarizeError NormalizedGame :=
  match ev.competitors.find? (fun c => c.homeAway = "home"),
        ev.competitors.find? (fun c => c.homeAway = "away") with
  | some home, some away =>
      .ok { home := team_info home
            away := team_info away
            status := ev.statusDescription
            start := ev.date.getD "" }
  | _, _ => .error .malformedGame

/-- The function `predict_winner`: the tie-break ladder.  Returns the picked team's name
and the `", ".join(reason)` of the reason list the code accumulates. -/
def predict_winner (g : NormalizedGame) : String × String :=
  let home := g.home
  let away := g.away
  let pr : TeamStat × List String :=
    if home.pct > away.pct then (home, ["better record"])
    else if away.pct > home.pct then (away, ["better record"])
    else if home.score ≠ away.score then
      ((if home.score > away.score then home else away), ["leading now"])
    else (home, ["home edge"])
  (pr.1.name, String.intercalate ", " pr.2)

/-- The outcome of `fetch_games(sport)`: either the `events` list, or any
exception (`requests` transport error or `raise_for_status`), carried as the
message text that Python interpolates with `{e}`. -/
inductive FetchResult where
  | ok (events : List RawGame)
  | error (msg : String)
deriving Repr, DecidableEq

/-- One formatted report line of the loop body in `build_daily_report`. -/
def report_line (g : NormalizedGame) : String :=
  let pw := predict_winner g
  let matchup := g.away.name ++ " @ " ++ g.home.name
  let score := toString g.away.score ++ "-" ++ toString g.home.score
  "• " ++ matchup ++ " — pick: **" ++ pw.1 ++ "** (" ++ pw.2 ++ ")  [" ++
    g.status ++ "; score " ++ score ++ "]"

/-- The `for ev in events` loop of `build_daily_report`: summarize each game
and format its line; a summarizer error escapes the loop at once. -/
def report_lines : List RawGame → Except SummarizeError (List String)
  | [] => .ok []
  | ev :: rest =>
    match summarize_game ev with
    | .error e => .error e
    | .ok g =>
      match report_lines rest with
      | .error e => .error e
      | .ok ls => .ok (report_line g :: ls)

/-- The function `build_daily_report(sport)`, with the fetch outcome passed explicitly.
Only `fetch_games` sits inside the `try`; an exception from `summarize_game`
is not caught and propagates (the `Except.error` result). -/
def build_daily_report (sport : String) (fetch : FetchResult) :
    Except SummarizeError String :=
  match fetch with
  | .error e => .ok ("❌ Could not fetch " ++ upper sport ++ " games: " ++ e)
  | .ok events =>
    if events.isEmpty then
      .ok ("No " ++ upper sport ++ " games found for today.")
    else
      match report_lines events with
      | .error e => .error e
      | .ok ls =>
        .ok (String.intercalate "\n" (("📅 " ++ upper sport ++ " games & picks") :: ls))

/-- The league selection of `today_cmd`: lower-case the caller's tokens, keep
those in `("mlb", "nfl")`, and fall back to `["mlb", "nfl"]` when no tokens
were given or none matched. -/
def today_leagues (args : List String) : List String :=
  let args := args.map lower
  let to_do := if args.isEmpty then ["mlb", "nfl"]
               else args.filter (fun a => a == "mlb" || a == "nfl")
  if to_do.isEmpty then ["mlb", "nfl"] else to_do

/-- Python `os.getenv(key, default)` over an explicit environment. -/
def getenv (envir : String → Option String) (key default_ : String) : String :=
  (envir key).getD default_

/-- The configuration line `WEBHOOK_SECRET = os.getenv("WEBHOOK_SECRET", "secret123")`. -/
def WEBHOOK_SECRET (envir : String → Option String) : String :=
  getenv envir "WEBHOOK_SECRET" "secret123"

/-- The secret check of `telegram_webhook`: the request proceeds exactly when
the path secret equals the configured `WEBHOOK_SECRET`. -/
def webhook_authorized (envir : String → Option String) (secret : String) : Bool :=
  secret == WEBHOOK_SECRET envir

/-- Whether `s` begins with `pre` (Python `str.startswith`), on the character lists. -/
def strBeginsWith (s pre : String) : Bool :=
  pre.data.isPrefixOf s.data

/-- C1: for every NormalizedGame, `predict_winner` evaluates the tie-break
ladder in order with the first applicable rule winning: a strictly higher
winPct picks that team with reason "better record"; equal winPct but
different currentScore picks the higher-scoring team with reason
"leading now"; both equal picks the home team with reason "home edge". -/
theorem predict_winner_tie_break_ladder (g : NormalizedGame) :
    (g.home.pct > g.away.pct →
      predict_winner g = (g.home.name, "better record")) ∧
    (g.away.pct > g.home.pct →
      predict_winner g = (g.away.name, "better record")) ∧
    (g.home.pct = g.away.pct → g.home.score ≠ g.away.score →
      predict_winner g =
        ((if g.home.score > g.away.score then g.home else g.away).name, "leading now")) ∧
    (g.home.pct = g.away.pct → g.home.score = g.away.score →
      predict_winner g = (g.home.name, "home edge")) := by
  refine ⟨fun h => ?_, fun h => ?_, fun h1 h2 => ?_, fun h1 h2 => ?_⟩ <;>
    (unfold predict_winner; dsimp only)
  · rw [if_pos h]; rfl
  · rw [if_neg (asymm h), if_pos h]; rfl
  · rw [h1, if_neg (lt_irrefl _), if_neg (lt_irrefl _), if_pos h2]; rfl
  · rw [h1, if_neg (lt_irrefl _), if_neg (lt_irrefl _), if_neg (by simp [h2])]; rfl

/-- Concrete instances of the tie-break ladder: a better home record, a
better away record, a leading away team under equal records, and the
home-edge fallback. -/
theorem predict_winner_tie_break_ladder_witness :
    ((⟨⟨"1", "H", "", 3, 1, 1, 0, true⟩, ⟨"2", "A", "", 0, 1, 0, 0, false⟩,
        "s", "t"⟩ : NormalizedGame).home.pct >
      (⟨⟨"1", "H", "", 3, 1, 1, 0, true⟩, ⟨"2", "A", "", 0, 1, 0, 0, false⟩,
        "s", "t"⟩ : NormalizedGame).away.pct ∧
      predict_winner ⟨⟨"1", "H", "", 3, 1, 1, 0, true⟩,
        ⟨"2", "A", "", 0, 1, 0, 0, false⟩, "s", "t"⟩ = ("H", "better record")) ∧
    (predict_winner ⟨⟨"1", "H", "", 0, 1, 0, 3, true⟩,
        ⟨"2", "A", "", 0, 1, 0, 5, false⟩, "s", "t"⟩ = ("A", "leading now")) ∧
    (predict_winner ⟨⟨"1", "H", "", 0, 1, 0, 4, true⟩,
        ⟨"2", "A", "", 0, 1, 0, 4, false⟩, "s", "t"⟩ = ("H", "home edge")) := by
  refine ⟨⟨by decide, ?_⟩, ?_, ?_⟩
  · exact (predict_winner_tie_break_ladder
      ⟨⟨"1", "H", "", 3, 1, 1, 0, true⟩, ⟨"2", "A", "", 0, 1, 0, 0, false⟩,
        "s", "t"⟩).1 (by decide)
  · exact (predict_winner_tie_break_ladder
      ⟨⟨"1", "H", "", 0, 1, 0, 3, true⟩, ⟨"2", "A", "", 0, 1, 0, 5, false⟩,
        "s", "t"⟩).2.2.1 (by decide) (by decide)
  · exact (predict_winner_tie_break_ladder
      ⟨⟨"1", "H", "", 0, 1, 0, 4, true⟩, ⟨"2", "A", "", 0, 1, 0, 4, false⟩,
        "s", "t"⟩).2.2.2 (by decide) (by decide)

theorem isPrefixOf_append_self (l r : List Char) :
    l.isPrefixOf (l ++ r) = true := by
  induction l with
  | nil => simp [List.isPrefixOf]
  | cons c cs ih => simp [List.isPrefixOf, ih]

theorem strBeginsWith_append (pre rest : String) :
    strBeginsWith (pre ++ rest) pre = true := by
  unfold strBeginsWith
  rw [String.data_append]
  exact isPrefixOf_append_self _ _

/-- C2 (counterexample): for league "mlb" and fetch error "boom",
`build_daily_report` returns the ❌-prefixed message, which does not begin
with "Could not fetch MLB games:". -/
theorem build_report_fetch_error_counterexample :
    build_daily_report "mlb" (.error "boom") =
      .ok "❌ Could not fetch MLB games: boom" ∧
    strBeginsWith "❌ Could not fetch MLB games: boom"
      "Could not fetch MLB games:" = false :=
  ⟨rfl, rfl⟩

/-- C2 (amended): for every league, when the fetch fails `build_daily_report`
returns (never raises) the text "❌ Could not fetch {LEAGUE} games: {error}",
which begins with "❌ Could not fetch {LEAGUE} games:" with the error message
appended; the fetch error is absorbed into the returned text. -/
theorem build_report_fetch_error_text (sport msg : String) :
    build_daily_report sport (.error msg) =
      .ok ("❌ Could not fetch " ++ upper sport ++ " games: " ++ msg) ∧
    strBeginsWith ("❌ Could not fetch " ++ upper sport ++ " games: " ++ msg)
      ("❌ Could not fetch " ++ upper sport ++ " games:") = true := by
  constructor
  · rfl
  · have h : ("❌ Could not fetch " ++ upper sport ++ " games:") ++ (" " ++ msg) =
        "❌ Could not fetch " ++ upper sport ++ " games: " ++ msg := by
      rw [← String.append_assoc
            ("❌ Could not fetch " ++ upper sport ++ " games:") " " msg,
          String.append_assoc ("❌ Could not fetch " ++ upper sport) " games:" " "]
      rfl
    rw [← h]
    exact strBeginsWith_append _ _

/-- C3: for every record-summary string with at least two embedded integer
runs, `parse_record` returns exactly the first two as (wins, losses),
ignoring any further integers; with fewer than two embedded integers
(including the empty string) it returns (0, 0). -/
theorem parse_record_first_two (s : String) :
    (∀ n0 n1 rest, record_nums s = n0 :: n1 :: rest →
      parse_record s = (n0, n1)) ∧
    ((record_nums s).length < 2 → parse_record s = (0, 0)) := by
  constructor
  · intro n0 n1 rest h
    simp [parse_record, h]
  · intro h
    unfold parse_record
    rcases hm : record_nums s with _ | ⟨n0, _ | ⟨n1, rest⟩⟩
    · rfl
    · rfl
    · rw [hm] at h
      simp at h
      omega

/-- Concrete instances of record parsing: "10-7-0" has three embedded
integers and parses to (10, 7); the empty string parses to (0, 0). -/
theorem parse_record_first_two_witness :
    parse_record "10-7-0" = (10, 7) ∧ parse_record "" = (0, 0) :=
  ⟨(parse_record_first_two "10-7-0").1 10 7 [0] (by decide),
   (parse_record_first_two "").2 (by decide)⟩

/-- C4: for every TeamStat built by `team_info`, `pct` is 0 when
wins + losses = 0, and otherwise equals wins / (wins + losses) exactly, as
a division of the parsed integers. -/
theorem team_info_pct_invariant (c : Competitor) :
    ((team_info c).wins + (team_info c).losses = 0 → (team_info c).pct = 0) ∧
    (0 < (team_info c).wins + (team_info c).losses →
      (team_info c).pct =
        ((team_info c).wins : ℚ) /
          (((team_info c).wins : ℚ) + ((team_info c).losses : ℚ))) := by
  unfold team_info
  dsimp only
  constructor
  · intro h
    rw [if_neg (by omega)]
  · intro h
    rw [if_pos h, Nat.max_eq_right h]
    push_cast
    rfl

/-- Concrete instances of the winPct invariant: a competitor with record
"10-7" has pct 10/17, and a competitor with no records has pct 0. -/
theorem team_info_pct_invariant_witness :
    (0 < (team_info ⟨"home", "1", "H", none, [some "10-7"], none⟩).wins +
        (team_info ⟨"home", "1", "H", none, [some "10-7"], none⟩).losses ∧
      (team_info ⟨"home", "1", "H", none, [some "10-7"], none⟩).pct =
        ((team_info ⟨"home", "1", "H", none, [some "10-7"], none⟩).wins : ℚ) /
          (((team_info ⟨"home", "1", "H", none, [some "10-7"], none⟩).wins : ℚ) +
            ((team_info ⟨"home", "1", "H", none, [some "10-7"], none⟩).losses : ℚ))) ∧
    ((team_info ⟨"away", "2", "A", none, [], none⟩).wins +
        (team_info ⟨"away", "2", "A", none, [], none⟩).losses = 0 ∧
      (team_info ⟨"away", "2", "A", none, [], none⟩).pct = 0) :=
  ⟨⟨by decide,
    (team_info_pct_invariant ⟨"home", "1", "H", none, [some "10-7"], none⟩).2
      (by decide)⟩,
   ⟨by decide,
    (team_info_pct_invariant ⟨"away", "2", "A", none, [], none⟩).1 (by decide)⟩⟩

/-- C5: league selection for the `/today` command matches the caller's tokens
case-insensitively against the supported league names, drops unmatched
tokens, and falls back to the full supported set ["mlb", "nfl"] (mlb before
nfl) when no tokens were given or none matched. -/
theorem today_leagues_selection (args : List String) :
    (args = [] → today_leagues args = ["mlb", "nfl"]) ∧
    ((args.map lower).filter (fun a => a == "mlb" || a == "nfl") = [] →
      today_leagues args = ["mlb", "nfl"]) ∧
    (∀ m, (args.map lower).filter (fun a => a == "mlb" || a == "nfl") = m →
      m ≠ [] → today_leagues args = m) := by
  refine ⟨fun h => ?_, fun h => ?_, fun m hm hne => ?_⟩
  · subst h; rfl
  · cases args with
    | nil => rfl
    | cons a as =>
      unfold today_leagues
      dsimp only
      rw [h]
      rfl
  · cases args with
    | nil =>
      simp only [List.map_nil, List.filter_nil] at hm
      exact absurd hm.symm hne
    | cons a as =>
      unfold today_leagues
      dsimp only
      rw [hm]
      cases m with
      | nil => exact absurd rfl hne
      | cons b bs => rfl

/-- Concrete league selections: ["MLB", "xyz"] keeps mlb only; ["xyz"] falls
back to the full default set. -/
theorem today_leagues_selection_witness :
    today_leagues ["MLB", "xyz"] = ["mlb"] ∧
    today_leagues ["xyz"] = ["mlb", "nfl"] :=
  ⟨(today_leagues_selection ["MLB", "xyz"]).2.2 ["mlb"] (by decide) (by decide),
   (today_leagues_selection ["xyz"]).2.1 (by decide)⟩

theorem build_daily_report_ok_def (sport : String) (events : List RawGame) :
    build_daily_report sport (.ok events) =
      if events.isEmpty then
        .ok ("No " ++ upper sport ++ " games found for today.")
      else
        match report_lines events with
        | .error e => .error e
        | .ok ls =>
          .ok (String.intercalate "\n"
            (("📅 " ++ upper sport ++ " games & picks") :: ls)) := rfl

theorem report_lines_error_of_mem (events : List RawGame) (ev : RawGame)
    (hmem : ev ∈ events) (he : summarize_game ev = .error .malformedGame) :
    report_lines events = .error .malformedGame := by
  induction events with
  | nil => cases hmem
  | cons a rest ih =>
    rcases List.mem_cons.mp hmem with rfl | hmem2
    · unfold report_lines
      rw [he]
    · unfold report_lines
      rw [ih hmem2]
      cases ha : summarize_game a with
      | error e => cases e; rfl
      | ok g => rfl

/-- C6: a raw game lacking a home competitor or lacking an away competitor
makes `summarize_game` fail with the malformed-game error, and
`build_daily_report` does not catch it: a fetched game list containing such
a game makes the whole report fail rather than return text. -/
theorem summarize_malformed_aborts_report (sport : String)
    (events : List RawGame) (ev : RawGame) (hmem : ev ∈ events)
    (hmal : ev.competitors.find? (fun c => c.homeAway = "home") = none ∨
      ev.competitors.find? (fun c => c.homeAway = "away") = none) :
    summarize_game ev = .error .malformedGame ∧
    build_daily_report sport (.ok events) = .error .malformedGame := by
  have hs : summarize_game ev = .error .malformedGame := by
    unfold summarize_game
    rcases h1 : ev.competitors.find? (fun c => c.homeAway = "home") with _ | home
    · rcases h2 : ev.competitors.find? (fun c => c.homeAway = "away") with _ | away <;>
        rw [h1, h2]
    · rcases h2 : ev.competitors.find? (fun c => c.homeAway = "away") with _ | away
      · rw [h1, h2]
      · exfalso
        rcases hmal with h | h
        · rw [h1] at h; simp at h
        · rw [h2] at h; simp at h
  have hne : events.isEmpty = false := by
    cases events
    · cases hmem
    · rfl
  refine ⟨hs, ?_⟩
  rw [build_daily_report_ok_def, if_neg (by simp [hne]),
    report_lines_error_of_mem events ev hmem hs]

/-- A concrete malformed game (away competitor only) aborts a concrete
report. -/
theorem summarize_malformed_aborts_report_witness :
    summarize_game ⟨[⟨"away", "2", "A", none, [], none⟩], "s", none⟩ =
      .error .malformedGame ∧
    build_daily_report "mlb"
        (.ok [⟨[⟨"away", "2", "A", none, [], none⟩], "s", none⟩]) =
      .error .malformedGame :=
  summarize_malformed_aborts_report "mlb"
    [⟨[⟨"away", "2", "A", none, [], none⟩], "s", none⟩]
    ⟨[⟨"away", "2", "A", none, [], none⟩], "s", none⟩
    (List.mem_singleton.mpr rfl) (Or.inl (by decide))

theorem report_lines_ok_of_all (events : List RawGame)
    (games : List NormalizedGame)
    (hsum : events.map summarize_game = games.map Except.ok) :
    report_lines events = .ok (games.map report_line) := by
  induction events generalizing games with
  | nil =>
    cases games with
    | nil => rfl
    | cons g gs => simp at hsum
  | cons a rest ih =>
    cases games with
    | nil => simp at hsum
    | cons g gs =>
      simp only [List.map_cons, List.cons.injEq] at hsum
      obtain ⟨ha, hrest⟩ := hsum
      unfold report_lines
      rw [ha, ih gs hrest]
      rfl

/-- C8: for every league whose fetch succeeds with a non-empty game list in
which every game summarizes, `build_daily_report` returns the header line
"📅 {LEAGUE} games & picks" followed by one line per game in source order,
newline-joined, each line "• {away} @ {home} — pick: **{pick}** ({reason})
[{status}; score {away.score}-{home.score}]" with the away score first. -/
theorem build_report_line_format (sport : String) (events : List RawGame)
    (games : List NormalizedGame) (hne : events ≠ [])
    (hsum : events.map summarize_game = games.map Except.ok) :
    build_daily_report sport (.ok events) =
      .ok (String.intercalate "\n"
        (("📅 " ++ upper sport ++ " games & picks") ::
          games.map (fun g =>
            "• " ++ g.away.name ++ " @ " ++ g.home.name ++ " — pick: **" ++
              (predict_winner g).1 ++ "** (" ++ (predict_winner g).2 ++
              ")  [" ++ g.status ++ "; score " ++ toString g.away.score ++
              "-" ++ toString g.home.score ++ "]"))) := by
  have hie : events.isEmpty = false := by
    cases events
    · exact absurd rfl hne
    · rfl
  rw [build_daily_report_ok_def, if_neg (by simp [hie]),
    report_lines_ok_of_all events games hsum]
  have hline : report_line = fun g : NormalizedGame =>
      "• " ++ g.away.name ++ " @ " ++ g.home.name ++ " — pick: **" ++
        (predict_winner g).1 ++ "** (" ++ (predict_winner g).2 ++
        ")  [" ++ g.status ++ "; score " ++ toString g.away.score ++
        "-" ++ toString g.home.score ++ "]" := by
    funext g
    unfold report_line
    dsimp only
    simp [String.append_assoc]
  rw [hline]

/-- A concrete one-game report: the fetched list summarizes to one
NormalizedGame and formats to the header plus its single line, with the
away score printed before the home score. -/
theorem build_report_line_format_witness :
    ([(⟨[⟨"home", "1", "Yanks", some "NYY", [], some "5"⟩,
         ⟨"away", "2", "Sox", some "BOS", [], some "3"⟩], "Live", some "d"⟩ :
        RawGame)] ≠ []) ∧
    ([(⟨[⟨"home", "1", "Yanks", some "NYY", [], some "5"⟩,
         ⟨"away", "2", "Sox", some "BOS", [], some "3"⟩], "Live", some "d"⟩ :
        RawGame)].map summarize_game =
      [(⟨⟨"1", "Yanks", "NYY", 0, 0, 0, 5, true⟩,
         ⟨"2", "Sox", "BOS", 0, 0, 0, 3, false⟩, "Live", "d"⟩ :
        NormalizedGame)].map Except.ok) ∧
    build_daily_report "mlb"
        (.ok [⟨[⟨"home", "1", "Yanks", some "NYY", [], some "5"⟩,
                ⟨"away", "2", "Sox", some "BOS", [], some "3"⟩],
               "Live", some "d"⟩]) =
      .ok "📅 MLB games & picks\n• Sox @ Yanks — pick: **Yanks** (leading now)  [Live; score 3-5]" := by
  refine ⟨by decide, rfl, ?_⟩
  have h := build_report_line_format "mlb"
    [⟨[⟨"home", "1", "Yanks", some "NYY", [], some "5"⟩,
       ⟨"away", "2", "Sox", some "BOS", [], some "3"⟩], "Live", some "d"⟩]
    [⟨⟨"1", "Yanks", "NYY", 0, 0, 0, 5, true⟩,
      ⟨"2", "Sox", "BOS", 0, 0, 0, 3, false⟩, "Live", "d"⟩]
    (by decide) rfl
  rw [h]
  rfl

/-- C9: for every league whose fetch succeeds with zero games,
`build_daily_report` returns exactly "No {LEAGUE} games found for today."
with the league name upper-cased. -/
theorem build_report_no_games (sport : String) :
    build_daily_report sport (.ok []) =
      .ok ("No " ++ upper sport ++ " games found for today.") := rfl

/-- C10: for every NormalizedGame, the prediction's picked name is the home
or the away team's name, and its reason is exactly one of "better record",
"leading now", "home edge" — the internal list-join never produces a
combined reason. -/
theorem predict_winner_pick_and_reason_range (g : NormalizedGame) :
    ((predict_winner g).1 = g.home.name ∨ (predict_winner g).1 = g.away.name) ∧
    ((predict_winner g).2 = "better record" ∨ (predict_winner g).2 = "leading now" ∨
      (predict_winner g).2 = "home edge") := by
  unfold predict_winner
  dsimp only
  split_ifs <;> constructor <;>
    simp [show ∀ s : String, String.intercalate ", " [s] = s from fun s => rfl]

/-- C7: the webhook secret configuration ships the insecure built-in default
"secret123": in an environment where WEBHOOK_SECRET is unset, the program
proceeds with that hard-coded value and the webhook authorizes a request
bearing it. -/
theorem webhook_secret_insecure_default :
    WEBHOOK_SECRET (fun _ => none) = "secret123" ∧
    webhook_authorized (fun _ => none) "secret123" = true :=
  ⟨rfl, rfl⟩

end BeansBot
